import Mathlib

/-!
Shallow embedding of the entropy-reconstruction and convergence-analysis
engine of `src/plotting/convergence.py` (sad-monte-carlo plotting code).

External SciPy solvers (`optimize.root`, `optimize.root_scalar`,
`optimize.minimize_scalar`) are modelled as abstract function parameters
returning the structures SciPy returns (an iterate plus a convergence flag);
the script reads only the iterate fields (`sol.x[0]`, `sol.root`, `res.x`).

NumPy float arrays are modelled as `List ℝ`; the Python literal `1e-14` is
modelled as the real number `1 / 10 ^ 14`, `0.5` as `1 / 2`, `1e-6` as
`1 / 10 ^ 6`.  Out-of-range indexing is totalized by a default of `0`
(`getAt`) and a no-op write (`setAt`); every claim theorem that depends on an
index being written keeps the index in range, matching the Python runs that
do not raise `IndexError`.
-/

noncomputable section

namespace SadMC

/-- Result record of `scipy.optimize.root`, restricted to the fields the
script can observe: the final iterate `x` (the script reads `sol.x[0]`) and
the convergence flag `success` (never read by the script). -/
structure RootResult where
  x : ℝ
  success : Bool

/-- Result record of `scipy.optimize.root_scalar`: the final iterate `root`
(the script reads `sol.root`) and the flag `converged` (never read). -/
structure RootScalarResult where
  root : ℝ
  converged : Bool

/-- Read element `i` of a list, `0` when out of range (models `a[i]` on a
NumPy array, totalized). -/
def getAt : List ℝ → ℕ → ℝ
  | [], _ => 0
  | x :: _, 0 => x
  | _ :: xs, n + 1 => getAt xs n

/-- Write element `i` of a list, unchanged when out of range (models
`a[i] = v` on a NumPy array, totalized). -/
def setAt : List ℝ → ℕ → ℝ → List ℝ
  | [], _, _ => []
  | _ :: xs, 0, v => v :: xs
  | x :: xs, n + 1, v => x :: setAt xs n v

/-- `fn_entropy(S_i_1, E_i_1, E_i, lnw_i, S_i)` from `convergence.py`
(lines 53-70): the residual whose root the Bin-Entropy Solver seeks.  The
Python code computes `delta_E = E_i_1 - E_i` (asserted positive),
`delta_S = S_i_1 - S_i`, `S_0 = S_i_1`, and branches on
`abs(delta_S) < 1e-14`.  The Python `assert delta_E > 0` is carried as a
hypothesis on the theorems, not in the function body. -/
def fn_entropy (S_i_1 E_i_1 E_i lnw_i S_i : ℝ) : ℝ :=
  let delta_E := E_i_1 - E_i
  let delta_S := S_i_1 - S_i
  let S_0 := S_i_1
  if |delta_S| < 1 / 10 ^ 14 then
    Real.log delta_E + S_0 - lnw_i
  else
    Real.log delta_E + S_0 - Real.log ((Real.exp delta_S - 1) / delta_S) - lnw_i

/-- The residual as the claim words it (spec section 4.3): `ΔE = E_i − E_{i-1}`
and `S_0` is the known boundary's entropy `S_i`.  This definition follows the
claim's words, to be compared with `fn_entropy`, which follows the source. -/
def fn_entropy_claimed (S_i_1 E_i_1 E_i lnw_i S_i : ℝ) : ℝ :=
  Real.log (E_i - E_i_1) + S_i
    - Real.log ((Real.exp (S_i_1 - S_i) - 1) / (S_i_1 - S_i)) - lnw_i

/-- `optimize_bin_entropy(i, E_bounds, lnw, S_i)` (lines 79-98): runs the
root finder on `fn_entropy` with the bin's data and returns `sol.x[0]`
unconditionally — `sol.success` is never consulted. -/
def optimize_bin_entropy (root : (ℝ → ℝ) → RootResult)
    (i : ℕ) (E_bounds lnw : List ℝ) (S_i : ℝ) : ℝ :=
  (root (fun S => fn_entropy S (getAt E_bounds (i - 1)) (getAt E_bounds i)
    (getAt lnw i) S_i)).x

/-- The loop body of `compute_entropy_given_Smin` (lines 103-105):
`for i in range(len(energy_boundaries)-1, 1, -1):
   entropy_boundaries[i-1] = optimize_bin_entropy(i, ..., entropy_boundaries[i])`.
The first argument is the current loop index `i`; the loop stops once `i`
reaches `1` (Python's `range(_, 1, -1)` excludes `1`). -/
def chain_loop (root : (ℝ → ℝ) → RootResult) (eb lnw : List ℝ) :
    ℕ → List ℝ → List ℝ
  | 0, S => S
  | 1, S => S
  | i + 2, S =>
    chain_loop root eb lnw (i + 1)
      (setAt S (i + 1) (optimize_bin_entropy root (i + 2) eb lnw (getAt S (i + 2))))

/-- `compute_entropy_given_Smin(Smin, energy_boundaries, lnw)` (lines
100-106): starts from `np.zeros_like(energy_boundaries)`, writes `Smin` into
the last slot, then runs the descending bin loop. -/
def compute_entropy_given_Smin (root : (ℝ → ℝ) → RootResult)
    (Smin : ℝ) (energy_boundaries lnw : List ℝ) : List ℝ :=
  chain_loop root energy_boundaries lnw (energy_boundaries.length - 1)
    (setAt (List.replicate energy_boundaries.length 0)
      (energy_boundaries.length - 1) Smin)

/-- The accumulation loop of `entropy_boundary_badness` (lines 110-116):
`badness_loop eb S n` is the value of `badness` after the first `n`
iterations of `for i in range(len(energy_boundaries)-2)`. -/
def badness_loop (eb S : List ℝ) : ℕ → ℝ
  | 0 => 0
  | n + 1 =>
    badness_loop eb S n +
      |((getAt S (n + 2) - getAt S (n + 1)) / (getAt eb (n + 2) - getAt eb (n + 1))
          - (getAt S (n + 1) - getAt S n) / (getAt eb (n + 1) - getAt eb n))
        / ((getAt eb (n + 2) - getAt eb (n + 1)) + (getAt eb (n + 1) - getAt eb n))|

/-- `entropy_boundary_badness(Smin, energy_boundaries, lnw)` (lines
108-117): rebuilds the entropy chain from `Smin` and sums the curvature
penalty over `range(len(energy_boundaries)-2)`. -/
def entropy_boundary_badness (root : (ℝ → ℝ) → RootResult)
    (Smin : ℝ) (energy_boundaries lnw : List ℝ) : ℝ :=
  badness_loop energy_boundaries
    (compute_entropy_given_Smin root Smin energy_boundaries lnw)
    (energy_boundaries.length - 2)

/-- `optimize_entropy(energy_boundaries, lnw)` (lines 119-122): feeds the
badness to `scipy.optimize.minimize_scalar` (modelled abstractly as
`minimize_scalar`, returning the `res.x` the script reads) and rebuilds the
chain at the minimizer's answer. -/
def optimize_entropy (root : (ℝ → ℝ) → RootResult)
    (minimize_scalar : (ℝ → ℝ) → ℝ) (energy_boundaries lnw : List ℝ) : List ℝ :=
  compute_entropy_given_Smin root
    (minimize_scalar (fun s => entropy_boundary_badness root s energy_boundaries lnw))
    energy_boundaries lnw

/-- `fn_for_beta(x, meanE_over_deltaE)` (lines 128-131).  Note the source
branches on `x < 1e-14`, a one-sided test with no absolute value. -/
def fn_for_beta (x meanE_over_deltaE : ℝ) : ℝ :=
  if x < 1 / 10 ^ 14 then (1 / 2) * x - x * meanE_over_deltaE
  else x / (1 - Real.exp (-x)) - 1 - x * meanE_over_deltaE

/-- `find_beta_deltaE(meanE_over_deltaE)` (lines 133-145): seeds the scalar
root finder at `2r` and `r` (or `±1e-6` when `r = 0`) and returns
`sol.root` unconditionally — `sol.converged` is never consulted. -/
def find_beta_deltaE (root_scalar : (ℝ → ℝ) → ℝ → ℝ → RootScalarResult)
    (meanE_over_deltaE : ℝ) : ℝ :=
  let x0 : ℝ := if meanE_over_deltaE = 0 then 1 / 10 ^ 6 else 2 * meanE_over_deltaE
  let x1 : ℝ := if meanE_over_deltaE = 0 then -(1 / 10 ^ 6) else meanE_over_deltaE
  (root_scalar (fun x => fn_for_beta x meanE_over_deltaE) x0 x1).root

/-- `other_density_of_states(E)` (lines 40-41): `np.zeros_like(E)`, i.e. the
constant zero density (pointwise over the energy grid). -/
def other_density_of_states (_E : ℝ) : ℝ := 0

/-- The per-base normalization of the loading loop (lines 183-186): if the
boundaries are ascending (`eb[0] < eb[-1]`), reverse all three arrays
together.  The degenerate `ndim == 0` wrap (lines 180-181) is already
absorbed by using lists. -/
def flip_if_ascending (eb me lnw : List ℝ) : List ℝ × List ℝ × List ℝ :=
  if getAt eb 0 < getAt eb (eb.length - 1) then (eb.reverse, me.reverse, lnw.reverse)
  else (eb, me, lnw)

/-- The per-base pipeline of the loading loop (lines 170-188): load the three
arrays, normalize their order, and call `optimize_entropy` directly.  No
length-consistency check of any kind appears between loading and solving;
the mean-energy array is loaded but unused by this path. -/
def load_and_calibrate (root : (ℝ → ℝ) → RootResult)
    (minimize_scalar : (ℝ → ℝ) → ℝ) (eb me lnw : List ℝ) : List ℝ :=
  let t := flip_if_ascending eb me lnw
  optimize_entropy root minimize_scalar t.1 t.2.2

/-- The reference-model choices the dispatch chain (lines 207-232) can
select. -/
inductive DOSChoice where
  | linear
  | quadratic
  | gaussian
  | erfinv
  | pieces
  | other
  deriving DecidableEq

/-- Whether `n` is a prefix of `h` (character lists). -/
def prefixOfL : List Char → List Char → Bool
  | [], _ => true
  | _ :: _, [] => false
  | a :: as, b :: bs => a == b && prefixOfL as bs

/-- Whether `n` occurs as a contiguous substring of `h`: models Python's
`n in h` on strings. -/
def containsL (n : List Char) : List Char → Bool
  | [] => n.isEmpty
  | b :: bs => prefixOfL n (b :: bs) || containsL n bs

/-- The density-of-states dispatch (lines 207-232): first substring tests on
the run's path (`'linear' in base`, `'quadratic' in base`), then equality
tests on the metadata tag `systems[base]['kind']`, with the
`other_density_of_states` fallback in the final `else`.  (The initial
`exact_density_of_states = linear_density_of_states` default on line 207 is
always overwritten, since the chain ends in an `else`.) -/
def exact_dos_choice (base : String) (kind : String) : DOSChoice :=
  if containsL "linear".data base.data then DOSChoice.linear
  else if containsL "quadratic".data base.data then DOSChoice.quadratic
  else if kind = "Gaussian" then DOSChoice.gaussian
  else if kind = "Erfinv" then DOSChoice.erfinv
  else if kind = "Pieces" then DOSChoice.pieces
  else DOSChoice.other

/-- Lexicographic (code-point) strict order on character lists: models
Python's `<` on strings, which `sorted` uses. -/
def ltL : List Char → List Char → Bool
  | [], [] => false
  | [], _ :: _ => true
  | _ :: _, [] => false
  | a :: as, b :: bs => if a < b then true else if b < a then false else ltL as bs

/-- Insert a file name into a lexicographically sorted list (ascending). -/
def insertName (s : String) : List String → List String
  | [] => [s]
  | t :: ts => if ltL t.data s.data then t :: insertName s ts else s :: t :: ts

/-- Lexicographic ascending sort of file names: models Python's
`sorted(glob.glob(base+'/*.cbor'))` — `sorted` on strings compares text.
The shared directory prefix `base+'/'` does not affect relative order. -/
def sortNames : List String → List String
  | [] => []
  | s :: ss => insertName s (sortNames ss)

/-- Strip the 5-character extension `.cbor`: models
`os.path.splitext(f)[0]` for these files. -/
def stripExtChars (cs : List Char) : List Char := cs.take (cs.length - 5)

/-- Parse a decimal digit string as a number: models `float(basename)` on
the move-count file names (whole numbers, so a `ℕ` value). -/
def parseMoveChars (cs : List Char) : ℕ :=
  cs.foldl (fun a c => 10 * a + (c.toNat - 48)) 0

/-- The move-count series emitted by the checkpoint loop (lines 239-243):
iterate the checkpoint files in `sorted(...)` order and append
`float(os.path.basename(os.path.splitext(f)[0]))` for each. -/
def tracker_moves (files : List String) : List ℕ :=
  (sortNames files).map (fun f => parseMoveChars (stripExtChars f.data))

/-! ## Helper lemmas about the array model and the chain loop -/

theorem length_setAt : ∀ (l : List ℝ) (n : ℕ) (v : ℝ), (setAt l n v).length = l.length
  | [], _, _ => rfl
  | _ :: _, 0, _ => rfl
  | x :: xs, n + 1, v => by simp [setAt, length_setAt xs n v]

theorem getAt_setAt_eq : ∀ (l : List ℝ) (n : ℕ) (v : ℝ), n < l.length →
    getAt (setAt l n v) n = v
  | [], _, _, h => absurd h (by simp)
  | _ :: _, 0, _, _ => rfl
  | x :: xs, n + 1, v, h => by
    simp only [setAt, getAt]
    exact getAt_setAt_eq xs n v (by simpa using h)

theorem getAt_setAt_ne : ∀ (l : List ℝ) (m n : ℕ) (v : ℝ), m ≠ n →
    getAt (setAt l n v) m = getAt l m
  | [], _, _, _, _ => rfl
  | _ :: _, 0, 0, _, h => absurd rfl h
  | _ :: _, 0, _ + 1, _, _ => rfl
  | _ :: _, _ + 1, 0, _, _ => rfl
  | x :: xs, m + 1, n + 1, v, h => by
    simp only [setAt, getAt]
    exact getAt_setAt_ne xs m n v (fun hc => h (by omega))

theorem getAt_replicate : ∀ n m : ℕ, getAt (List.replicate n (0 : ℝ)) m = 0
  | 0, _ => rfl
  | _ + 1, 0 => rfl
  | n + 1, m + 1 => by
    simp only [List.replicate, getAt]
    exact getAt_replicate n m

theorem chain_loop_length (root : (ℝ → ℝ) → RootResult) (eb lnw : List ℝ) :
    ∀ (i : ℕ) (S : List ℝ), (chain_loop root eb lnw i S).length = S.length
  | 0, _ => rfl
  | 1, _ => rfl
  | i + 2, S => by
    simp only [chain_loop]
    rw [chain_loop_length root eb lnw (i + 1)]
    exact length_setAt S (i + 1) _

/-- The loop never writes at or above its starting index: entries from index
`i` up are those of the input state. -/
theorem chain_loop_getAt_high (root : (ℝ → ℝ) → RootResult) (eb lnw : List ℝ) :
    ∀ (i : ℕ) (S : List ℝ) (j : ℕ), i ≤ j →
      getAt (chain_loop root eb lnw i S) j = getAt S j
  | 0, _, _, _ => rfl
  | 1, _, _, _ => rfl
  | i + 2, S, j, h => by
    simp only [chain_loop]
    rw [chain_loop_getAt_high root eb lnw (i + 1) _ j (by omega)]
    exact getAt_setAt_ne S j (i + 1) _ (by omega)

/-- The loop never writes index `0`: Python's `range(len-1, 1, -1)` stops at
`i = 2`, whose write goes to slot `1`. -/
theorem chain_loop_getAt_zero (root : (ℝ → ℝ) → RootResult) (eb lnw : List ℝ) :
    ∀ (i : ℕ) (S : List ℝ), getAt (chain_loop root eb lnw i S) 0 = getAt S 0
  | 0, _ => rfl
  | 1, _ => rfl
  | i + 2, S => by
    simp only [chain_loop]
    rw [chain_loop_getAt_zero root eb lnw (i + 1)]
    exact getAt_setAt_ne S 0 (i + 1) _ (by omega)

/-- Each interior slot `1 ≤ j < i` of the loop's output holds the solver's
answer for bin `j+1`, fed the already-solved entropy at slot `j+1`. -/
theorem chain_loop_recurrence (root : (ℝ → ℝ) → RootResult) (eb lnw : List ℝ) :
    ∀ (i : ℕ) (S : List ℝ), i < S.length → ∀ j, 1 ≤ j → j < i →
      getAt (chain_loop root eb lnw i S) j
        = optimize_bin_entropy root (j + 1) eb lnw
            (getAt (chain_loop root eb lnw i S) (j + 1))
  | 0, _, _, _, _, _ => by omega
  | 1, _, _, _, _, _ => by omega
  | i + 2, S, hlen, j, h1, h2 => by
    simp only [chain_loop]
    by_cases hj : j < i + 1
    · exact chain_loop_recurrence root eb lnw (i + 1) _
        (by rw [length_setAt]; omega) j h1 hj
    · have hj' : j = i + 1 := by omega
      subst hj'
      rw [chain_loop_getAt_high root eb lnw (i + 1) _ (i + 1) (le_refl _)]
      rw [chain_loop_getAt_high root eb lnw (i + 1) _ (i + 2) (by omega)]
      rw [getAt_setAt_eq S (i + 1) _ (by omega)]
      rw [getAt_setAt_ne S (i + 2) (i + 1) _ (by omega)]

theorem compute_length (root : (ℝ → ℝ) → RootResult) (Smin : ℝ) (eb lnw : List ℝ) :
    (compute_entropy_given_Smin root Smin eb lnw).length = eb.length := by
  unfold compute_entropy_given_Smin
  rw [chain_loop_length, length_setAt, List.length_replicate]

theorem getAt_compute_last (root : (ℝ → ℝ) → RootResult) (Smin : ℝ)
    (eb lnw : List ℝ) (h : 1 ≤ eb.length) :
    getAt (compute_entropy_given_Smin root Smin eb lnw) (eb.length - 1) = Smin := by
  unfold compute_entropy_given_Smin
  rw [chain_loop_getAt_high root eb lnw _ _ _ (le_refl _)]
  exact getAt_setAt_eq _ _ _ (by rw [List.length_replicate]; omega)

/-! ## Claim theorems -/

/-- C10: for every boundary array of length ≥ 1, every log-weight array and
every anchor `Smin`, and whatever numbers the abstract per-bin solver
returns, `compute_entropy_given_Smin` returns a list of the same length as
the boundary list whose last element is exactly `Smin`. -/
theorem compute_entropy_length_and_anchor (root : (ℝ → ℝ) → RootResult)
    (Smin : ℝ) (eb lnw : List ℝ) (h : 1 ≤ eb.length) :
    (compute_entropy_given_Smin root Smin eb lnw).length = eb.length ∧
      getAt (compute_entropy_given_Smin root Smin eb lnw) (eb.length - 1) = Smin :=
  ⟨compute_length root Smin eb lnw, getAt_compute_last root Smin eb lnw h⟩

/-- Witness for C10 at a concrete two-boundary input. -/
theorem compute_entropy_length_and_anchor_witness :
    (compute_entropy_given_Smin (fun _ => ⟨2, true⟩) 9 [1, 0] [0, 0]).length
        = ([1, 0] : List ℝ).length ∧
      getAt (compute_entropy_given_Smin (fun _ => ⟨2, true⟩) 9 [1, 0] [0, 0])
        (([1, 0] : List ℝ).length - 1) = 9 :=
  compute_entropy_length_and_anchor (fun _ => ⟨2, true⟩) 9 [1, 0] [0, 0] (by decide)

/-- C2 (amended): the Chain Builder assigns the anchor `Smin` to the terminal
(last) boundary and, iterating from the highest-energy boundary toward the
lowest, fills slots `n-1` down to `1` with solver answers — but Python's
`range(len-1, 1, -1)` stops before `i = 1`, so boundary `0` is never
assigned and keeps its `np.zeros_like` placeholder `0`. -/
theorem compute_entropy_chain_structure (root : (ℝ → ℝ) → RootResult)
    (Smin : ℝ) (eb lnw : List ℝ) (h : 2 ≤ eb.length) :
    (compute_entropy_given_Smin root Smin eb lnw).length = eb.length ∧
      getAt (compute_entropy_given_Smin root Smin eb lnw) (eb.length - 1) = Smin ∧
      getAt (compute_entropy_given_Smin root Smin eb lnw) 0 = 0 ∧
      ∀ j, 1 ≤ j → j ≤ eb.length - 2 →
        getAt (compute_entropy_given_Smin root Smin eb lnw) j
          = optimize_bin_entropy root (j + 1) eb lnw
              (getAt (compute_entropy_given_Smin root Smin eb lnw) (j + 1)) := by
  refine ⟨compute_length root Smin eb lnw,
    getAt_compute_last root Smin eb lnw (by omega), ?_, ?_⟩
  · unfold compute_entropy_given_Smin
    rw [chain_loop_getAt_zero]
    rw [getAt_setAt_ne _ 0 (eb.length - 1) _ (by omega)]
    exact getAt_replicate _ 0
  · intro j h1 h2
    unfold compute_entropy_given_Smin
    exact chain_loop_recurrence root eb lnw (eb.length - 1) _
      (by rw [length_setAt, List.length_replicate]; omega) j h1 (by omega)

/-- Witness for C2's amended theorem at a concrete three-boundary input. -/
theorem compute_entropy_chain_structure_witness :
    getAt (compute_entropy_given_Smin (fun _ => ⟨1, true⟩) 5 [2, 1, 0] [0, 0, 0]) 0 = 0 ∧
      getAt (compute_entropy_given_Smin (fun _ => ⟨1, true⟩) 5 [2, 1, 0] [0, 0, 0])
          (([2, 1, 0] : List ℝ).length - 1) = 5 ∧
      getAt (compute_entropy_given_Smin (fun _ => ⟨1, true⟩) 5 [2, 1, 0] [0, 0, 0]) 1
        = optimize_bin_entropy (fun _ => ⟨1, true⟩) 2 [2, 1, 0] [0, 0, 0]
            (getAt (compute_entropy_given_Smin (fun _ => ⟨1, true⟩) 5 [2, 1, 0] [0, 0, 0]) 2) :=
  ⟨(compute_entropy_chain_structure (fun _ => ⟨1, true⟩) 5 [2, 1, 0] [0, 0, 0]
      (by decide)).2.2.1,
    (compute_entropy_chain_structure (fun _ => ⟨1, true⟩) 5 [2, 1, 0] [0, 0, 0]
      (by decide)).2.1,
    (compute_entropy_chain_structure (fun _ => ⟨1, true⟩) 5 [2, 1, 0] [0, 0, 0]
      (by decide)).2.2.2 1 (by decide) (by decide)⟩

/-- Counterexample to C2 as stated: with three boundaries, an anchor of `5`
and a solver that always returns `1`, the output is `[0, 1, 5]` — the first
boundary is left at its initial placeholder `0`, a value the solver never
produced and distinct from the anchor, so not every boundary receives a
solved entropy value. -/
theorem compute_entropy_skips_first_boundary :
    compute_entropy_given_Smin (fun _ => ⟨1, true⟩) 5 [2, 1, 0] [0, 0, 0] = [0, 1, 5] := rfl

/-- C3 (amended): the checkpoint loop iterates `sorted(glob.glob(...))`,
i.e. ascending lexicographic order of the file names; the move counts are
parsed numerically only for the emitted values, not for the order, so
checkpoints `"100"`, `"20"`, `"5"` are emitted as `[100, 20, 5]`. -/
theorem tracker_moves_lexicographic :
    tracker_moves ["100.cbor", "20.cbor", "5.cbor"] = [100, 20, 5] := by decide

/-- Counterexample to C3 as stated: the emitted series for checkpoints
`"100"`, `"20"`, `"5"` is not in ascending numeric order `[5, 20, 100]`. -/
theorem tracker_moves_not_numeric_order :
    tracker_moves ["100.cbor", "20.cbor", "5.cbor"] ≠ [5, 20, 100] := by decide

/-- C9 (amended): the reference-model dispatch first inspects the run's path
for the substrings `linear` and `quadratic`; only when neither occurs in
either path does the selection depend solely on the parsed metadata tag. -/
theorem dos_choice_metadata_only_without_keywords (base1 base2 kind : String)
    (h1 : containsL "linear".data base1.data = false)
    (h2 : containsL "quadratic".data base1.data = false)
    (h3 : containsL "linear".data base2.data = false)
    (h4 : containsL "quadratic".data base2.data = false) :
    exact_dos_choice base1 kind = exact_dos_choice base2 kind := by
  simp [exact_dos_choice, h1, h2, h3, h4]

/-- Witness for C9's amended theorem: two keyword-free paths with the same
metadata select the same model. -/
theorem dos_choice_metadata_only_witness :
    exact_dos_choice "runa" "Gaussian" = exact_dos_choice "runb" "Gaussian" :=
  dos_choice_metadata_only_without_keywords "runa" "runb" "Gaussian"
    (by decide) (by decide) (by decide) (by decide)

/-- Counterexample to C9 as stated: two runs with identical parsed metadata
(`kind = "Gaussian"`, same parameters) select different reference models
when one run's path happens to contain the substring `linear`. -/
theorem dos_choice_path_dependent :
    exact_dos_choice "runa" "Gaussian" ≠ exact_dos_choice "linear-runa" "Gaussian" := by
  decide

/-- C8 (amended): evaluating the reference model with an unrecognized
discriminant returns a zero density at every energy, without failing; that
is a zero density, not a zero log-density — no real log-density corresponds
to it, since the exponential never vanishes. -/
theorem other_density_is_zero_density :
    ∀ E : ℝ, other_density_of_states E = 0 ∧
      ∀ L : ℝ, Real.exp L ≠ other_density_of_states E := by
  intro E
  exact ⟨rfl, fun L => (Real.exp_pos L).ne'⟩

/-- Counterexample to C8 as stated: a log-density equal to zero would mean a
density of `exp 0 = 1`, but the Unknown fallback returns density `0`. -/
theorem other_density_log_counterexample :
    other_density_of_states (1 / 2) = 0 ∧
      Real.exp 0 ≠ other_density_of_states (1 / 2) := by
  refine ⟨rfl, ?_⟩
  simp [other_density_of_states]

/-- C6 (amended): both solvers return the numeric iterate field of the
solver result unconditionally; the convergence flag never influences the
returned value, so a non-converged solve is indistinguishable from a
converged one with the same iterate. -/
theorem solver_flag_ignored (r1 r2 : (ℝ → ℝ) → RootResult)
    (s1 s2 : (ℝ → ℝ) → ℝ → ℝ → RootScalarResult)
    (i : ℕ) (eb lnw : List ℝ) (Si q : ℝ)
    (hx : ∀ f, (r1 f).x = (r2 f).x)
    (hr : ∀ f a b, (s1 f a b).root = (s2 f a b).root) :
    optimize_bin_entropy r1 i eb lnw Si = optimize_bin_entropy r2 i eb lnw Si ∧
      find_beta_deltaE s1 q = find_beta_deltaE s2 q :=
  ⟨hx _, hr _ _ _⟩

/-- Witness for C6's amended theorem: flipping only the convergence flags
leaves both returned values unchanged. -/
theorem solver_flag_ignored_witness :
    optimize_bin_entropy (fun _ => ⟨3, false⟩) 2 [2, 1, 0] [0, 0, 0] 0
        = optimize_bin_entropy (fun _ => ⟨3, true⟩) 2 [2, 1, 0] [0, 0, 0] 0 ∧
      find_beta_deltaE (fun _ _ _ => ⟨5, false⟩) 1
        = find_beta_deltaE (fun _ _ _ => ⟨5, true⟩) 1 :=
  solver_flag_ignored (fun _ => ⟨3, false⟩) (fun _ => ⟨3, true⟩)
    (fun _ _ _ => ⟨5, false⟩) (fun _ _ _ => ⟨5, true⟩) 2 [2, 1, 0] [0, 0, 0] 0 1
    (fun _ => rfl) (fun _ _ _ => rfl)

/-- Counterexample to C6 as stated: a root finder that reports
non-convergence (`success = false`, `converged = false`) still yields plain
numeric results (`42`, `7`) through both entry points — nothing
distinguishable reaches the caller. -/
theorem nonconverged_indistinguishable :
    optimize_bin_entropy (fun _ => ⟨42, false⟩) 2 [2, 1, 0] [0, 0, 0] 0 = 42 ∧
      find_beta_deltaE (fun _ _ _ => ⟨7, false⟩) 0 = 7 :=
  ⟨rfl, rfl⟩

/-- C1 (amended): in the non-degenerate branch (`|ΔS| ≥ 1e-14`) and with the
asserted bin orientation `E_{i-1} > E_i`, the Bin-Entropy Solver residual
equals `log(ΔE) + S_0 − log((e^ΔS − 1)/ΔS) − lnw_i` with
`ΔE = E_{i-1} − E_i > 0` (not `E_i − E_{i-1}`), `ΔS = S_{i-1} − S_i`, and
`S_0 = S_{i-1}` — the entropy being solved for, not the known boundary's
entropy `S_i`. -/
theorem fn_entropy_residual_formula (S_i_1 E_i_1 E_i lnw_i S_i : ℝ)
    (_hE : E_i < E_i_1) (hS : 1 / 10 ^ 14 ≤ |S_i_1 - S_i|) :
    fn_entropy S_i_1 E_i_1 E_i lnw_i S_i
      = Real.log (E_i_1 - E_i) + S_i_1
          - Real.log ((Real.exp (S_i_1 - S_i) - 1) / (S_i_1 - S_i)) - lnw_i := by
  simp only [fn_entropy, if_neg (not_lt.mpr hS)]

/-- Witness for C1's amended theorem at `S_{i-1} = 1`, `E_{i-1} = 1`,
`E_i = 0`, `lnw_i = 0`, `S_i = 0`. -/
theorem fn_entropy_residual_formula_witness :
    fn_entropy 1 1 0 0 0
      = Real.log ((1 : ℝ) - 0) + 1
          - Real.log ((Real.exp ((1 : ℝ) - 0) - 1) / ((1 : ℝ) - 0)) - 0 :=
  fn_entropy_residual_formula 1 1 0 0 0 (by norm_num)
    (by rw [show ((1 : ℝ) - 0) = 1 by norm_num, abs_one]; norm_num)

/-- Counterexample to C1 as stated: at `S_{i-1} = 1`, `E_{i-1} = 1`,
`E_i = 0`, `lnw_i = 0`, `S_i = 0` (a non-degenerate bin with
`E_{i-1} > E_i`), the source residual differs from the claim's formula
`log(E_i − E_{i-1}) + S_i − log((e^ΔS − 1)/ΔS) − lnw_i`: the two expressions
differ by `1` (the source adds `S_{i-1} = 1` where the claim adds
`S_i = 0`, and the source's log argument is `+1` where the claim's is
`−1`). -/
theorem fn_entropy_spec_formula_counterexample :
    fn_entropy 1 1 0 0 0 ≠ fn_entropy_claimed 1 1 0 0 0 := by
  have hcond : ¬ (|(1 : ℝ) - 0| < 1 / 10 ^ 14) := by
    rw [show ((1 : ℝ) - 0) = 1 by norm_num, abs_one]; norm_num
  have hlog : Real.log (-1 : ℝ) = 0 := by rw [Real.log_neg_eq_log, Real.log_one]
  simp only [fn_entropy, fn_entropy_claimed, if_neg hcond]
  intro hEq
  rw [show ((0 : ℝ) - 1) = -1 by norm_num, hlog,
    show ((1 : ℝ) - 0) = 1 by norm_num, Real.log_one] at hEq
  linarith

/-- C5 (amended): `fn_entropy` branches on `|ΔS| < 1e-14` exactly as the
claim states, but `fn_for_beta` branches on the one-sided test `x < 1e-14`:
the linear limiting branch is taken for every `x` below the threshold —
including every negative `x` of large magnitude — and the general branch
only for `x ≥ 1e-14`; in both functions the general branch's division by
the near-zero quantity is only evaluated on its own branch. -/
theorem branch_thresholds (S1 E1 E0 w S0 x r : ℝ) :
    (1 / 10 ^ 14 ≤ |S1 - S0| →
        fn_entropy S1 E1 E0 w S0
          = Real.log (E1 - E0) + S1
              - Real.log ((Real.exp (S1 - S0) - 1) / (S1 - S0)) - w) ∧
      (|S1 - S0| < 1 / 10 ^ 14 →
        fn_entropy S1 E1 E0 w S0 = Real.log (E1 - E0) + S1 - w) ∧
      (x < 1 / 10 ^ 14 → fn_for_beta x r = (1 / 2) * x - x * r) ∧
      (1 / 10 ^ 14 ≤ x → fn_for_beta x r = x / (1 - Real.exp (-x)) - 1 - x * r) := by
  refine ⟨fun h => ?_, fun h => ?_, fun h => ?_, fun h => ?_⟩
  · simp only [fn_entropy, if_neg (not_lt.mpr h)]
  · simp only [fn_entropy, if_pos h]
  · simp only [fn_for_beta, if_pos h]
  · simp only [fn_for_beta, if_neg (not_lt.mpr h)]

/-- Witness for C5's amended theorem: each of the four branch facts at a
concrete input, including the linear branch of `fn_for_beta` at the negative
input `x = -2` of magnitude far above the threshold. -/
theorem branch_thresholds_witness :
    fn_entropy 2 1 0 0 0
        = Real.log ((1 : ℝ) - 0) + 2
            - Real.log ((Real.exp ((2 : ℝ) - 0) - 1) / ((2 : ℝ) - 0)) - 0 ∧
      fn_entropy 0 1 0 0 0 = Real.log ((1 : ℝ) - 0) + 0 - 0 ∧
      fn_for_beta (-2) 3 = (1 / 2) * (-2 : ℝ) - (-2 : ℝ) * 3 ∧
      fn_for_beta 1 0 = (1 : ℝ) / (1 - Real.exp (-1)) - 1 - 1 * 0 :=
  ⟨(branch_thresholds 2 1 0 0 0 0 0).1
      (by rw [show ((2 : ℝ) - 0) = 2 by norm_num]; rw [abs_of_pos] <;> norm_num),
    (branch_thresholds 0 1 0 0 0 0 0).2.1
      (by rw [show ((0 : ℝ) - 0) = 0 by norm_num, abs_zero]; norm_num),
    (branch_thresholds 0 0 0 0 0 (-2) 3).2.2.1 (by norm_num),
    (branch_thresholds 0 0 0 0 0 1 0).2.2.2 (by norm_num)⟩

/-- Counterexample to C5 as stated: at `x = -1`, `r = 0` the magnitude
`|x| = 1` is far above `1e-14`, yet `fn_for_beta` takes the linear
limiting branch (`x < 1e-14` is one-sided) and returns `-1/2`, while the
general branch's value `(-1)/(1 - e) - 1 ≈ -0.418` is different. -/
theorem fn_for_beta_negative_branch_counterexample :
    fn_for_beta (-1) 0 = -(1 / 2) ∧
      (-1 : ℝ) / (1 - Real.exp (-(-1 : ℝ))) - 1 - (-1 : ℝ) * 0 ≠ -(1 / 2) := by
  constructor
  · rw [show fn_for_beta (-1) 0 = (1 / 2) * (-1 : ℝ) - (-1 : ℝ) * 0 from by
      simp only [fn_for_beta, if_pos (by norm_num : (-1 : ℝ) < 1 / 10 ^ 14)]]
    norm_num
  · intro h
    have h1 : Real.exp 1 < 2.7182818286 := Real.exp_one_lt_d9
    have h2 : (2.7182818283 : ℝ) < Real.exp 1 := Real.exp_one_gt_d9
    have hne : (1 : ℝ) - Real.exp 1 ≠ 0 := by intro hz; nlinarith
    rw [show (-(-1 : ℝ)) = 1 by norm_num] at h
    field_simp at h
    nlinarith

/-- C4: the calibration penalty equals the sum, over all interior
boundaries, of the absolute normalized difference of adjacent slopes of the
chain built from `Smin`; and `optimize_entropy` returns the chain rebuilt at
the `Smin` the abstract scalar minimizer reports for that penalty. -/
theorem badness_loop_eq_sum (eb S : List ℝ) :
    ∀ n, badness_loop eb S n
      = ∑ i ∈ Finset.range n,
          |((getAt S (i + 2) - getAt S (i + 1)) / (getAt eb (i + 2) - getAt eb (i + 1))
              - (getAt S (i + 1) - getAt S i) / (getAt eb (i + 1) - getAt eb i))
            / ((getAt eb (i + 2) - getAt eb (i + 1)) + (getAt eb (i + 1) - getAt eb i))|
  | 0 => by simp [badness_loop]
  | n + 1 => by
    simp only [badness_loop]
    rw [badness_loop_eq_sum eb S n, Finset.sum_range_succ]

/-- C4: see `badness_loop_eq_sum` for the fold-to-sum bridge; this is the
claim itself, for the penalty and for the final calibrated chain. -/
theorem badness_and_optimize_entropy_spec (root : (ℝ → ℝ) → RootResult)
    (minimize_scalar : (ℝ → ℝ) → ℝ) (Smin : ℝ) (eb lnw : List ℝ) :
    entropy_boundary_badness root Smin eb lnw
        = ∑ i ∈ Finset.range (eb.length - 2),
            |((getAt (compute_entropy_given_Smin root Smin eb lnw) (i + 2)
                  - getAt (compute_entropy_given_Smin root Smin eb lnw) (i + 1))
                / (getAt eb (i + 2) - getAt eb (i + 1))
              - (getAt (compute_entropy_given_Smin root Smin eb lnw) (i + 1)
                  - getAt (compute_entropy_given_Smin root Smin eb lnw) i)
                / (getAt eb (i + 1) - getAt eb i))
            / ((getAt eb (i + 2) - getAt eb (i + 1)) + (getAt eb (i + 1) - getAt eb i))| ∧
      optimize_entropy root minimize_scalar eb lnw
        = compute_entropy_given_Smin root
            (minimize_scalar (fun s => entropy_boundary_badness root s eb lnw))
            eb lnw :=
  ⟨badness_loop_eq_sum eb (compute_entropy_given_Smin root Smin eb lnw)
      (eb.length - 2), rfl⟩

/-- C7 (amended): the loading pipeline performs no length-consistency
validation and has no MalformedHistogram condition: with mismatched sequence
lengths (here a log-weight list at least as long as the boundary list, so
every access stays in range exactly as in the Python run) it proceeds
straight into the calibration optimizer and returns an entropy list of the
boundary list's length. -/
theorem loader_no_length_validation (root : (ℝ → ℝ) → RootResult)
    (minimize_scalar : (ℝ → ℝ) → ℝ) (eb me lnw : List ℝ)
    (_h1 : 1 ≤ eb.length) (_h2 : eb.length ≤ lnw.length) :
    load_and_calibrate root minimize_scalar eb me lnw
        = optimize_entropy root minimize_scalar (flip_if_ascending eb me lnw).1
            (flip_if_ascending eb me lnw).2.2 ∧
      (load_and_calibrate root minimize_scalar eb me lnw).length = eb.length := by
  refine ⟨rfl, ?_⟩
  unfold load_and_calibrate optimize_entropy
  rw [compute_length]
  unfold flip_if_ascending
  split
  · simp
  · rfl

/-- Witness for C7's amended theorem at a concrete mismatched input: three
boundaries, one mean energy, four log-weights. -/
theorem loader_no_length_validation_witness :
    (load_and_calibrate (fun _ => ⟨7, true⟩) (fun _ => 0) [2, 1, 0] [9] [0, 0, 0, 0]).length
      = ([2, 1, 0] : List ℝ).length :=
  (loader_no_length_validation (fun _ => ⟨7, true⟩) (fun _ => 0) [2, 1, 0] [9]
    [0, 0, 0, 0] (by decide) (by decide)).2

/-- Counterexample to C7 as stated: boundaries of length 3, a mean-energy
list of length 1 and a log-weight list of length 4 are mutually
inconsistent, yet nothing fails before solving and the solver is invoked —
its answer `7` appears in the returned entropy list. -/
theorem loader_mismatch_counterexample :
    load_and_calibrate (fun _ => ⟨7, true⟩) (fun _ => 0) [2, 1, 0] [9] [0, 0, 0, 0]
      = [0, 7, 0] := by
  have hc : ¬ (getAt ([2, 1, 0] : List ℝ) 0
      < getAt ([2, 1, 0] : List ℝ) (([2, 1, 0] : List ℝ).length - 1)) := by
    norm_num [getAt]
  simp only [load_and_calibrate, flip_if_ascending, if_neg hc]
  rfl

end SadMC

end
